import Mathlib

/-!
# Verification of the patient-record service (`src/main.py`)

Shallow embedding of the FastAPI patient-management service:

* Python floats (`salary`, `height`, `weight`, `bmi`) are modelled as `ℚ`,
  with `round(x, 2)` modelled as exact round-half-to-even of `x * 100`
  (Python's `round` is banker's rounding).
* The JSON store (`patient.json`, a dict keyed by patient id) is modelled as
  an insertion-ordered association list `Store = List (String × StoredDoc)`;
  dict assignment, membership, access and `pop` are modelled by `dictSet`,
  `hasId`, `lookupId`, `dictPop`, which mirror Python dict semantics
  (in-place overwrite keeps position, fresh keys append at the end).
* Each HTTP handler becomes a pure function from the loaded store (and the
  validated request data) to a pair of the response (`Except HTTPError _`)
  and the store contents after the handler ran (`save_data` on success,
  unchanged when an exception aborts the handler before `save_data`).
* Pydantic validation of the `Patient` body (FastAPI rejects invalid bodies
  with 422 before the handler runs) is the predicate `Patient.Valid`;
  note that `PatientUpdate` declares no range constraints, so there is no
  corresponding predicate for updates.
-/

/-- `Literal['male', 'female', 'other']` from `src/main.py` line 15. -/
inductive Gender where
  | male
  | female
  | other
deriving DecidableEq, Repr

/-- Python `round` to an integer: round half to even (banker's rounding). -/
def roundHalfEven (q : ℚ) : ℤ :=
  let n := q.floor
  let frac := q - (n : ℚ)
  if frac < 1/2 then n
  else if 1/2 < frac then n + 1
  else if n % 2 = 0 then n else n + 1

/-- Python `round(x, 2)`: round to two decimal places. -/
def round2 (q : ℚ) : ℚ := (roundHalfEven (q * 100) : ℚ) / 100

/-- The verdict classification chain, as written (twice) in the source:
`Patient.verdict` (`src/main.py` lines 32-40) and the recomputation inside
`update_patient` (lines 136-143).  Both chains are character-identical in
the source, so they share this single definition. -/
def classify (bmi : ℚ) : String :=
  if bmi < 18.5 then "Underweight"
  else if 18.5 ≤ bmi ∧ bmi < 24.9 then "Normal weight"
  else if 25 ≤ bmi ∧ bmi < 29.9 then "Overweight"
  else "Obesity"

/-- The `Patient` pydantic model (`src/main.py` lines 10-22): the declared
(non-derived) fields. -/
structure Patient where
  id : String
  name : String
  age : ℤ
  blood_group : String
  gender : Gender
  phone : String
  email : String
  address : String
  doctor : String
  salary : ℚ
  height : ℚ
  weight : ℚ
deriving DecidableEq, Repr

namespace Patient

/-- The `Field` range constraints of the `Patient` model: `age` has
`gt=0, lt=120`; `salary`, `height`, `weight` have `gt=0`.  (String fields
carry no constraints in the source.)  FastAPI/pydantic enforce these before
`create_patient` runs. -/
def Valid (p : Patient) : Prop :=
  0 < p.age ∧ p.age < 120 ∧ 0 < p.salary ∧ 0 < p.height ∧ 0 < p.weight

instance (p : Patient) : Decidable p.Valid := by
  unfold Valid
  infer_instance

/-- `Patient.bmi` computed field (`src/main.py` lines 24-28):
`round(self.weight / ((self.height / 100) ** 2), 2)`. -/
def bmi (p : Patient) : ℚ :=
  round2 (p.weight / ((p.height / 100) ^ 2))

/-- `Patient.verdict` computed field (`src/main.py` lines 30-40):
the if/elif chain on `self.bmi`. -/
def verdict (p : Patient) : String :=
  classify p.bmi

end Patient

/-- A record document as persisted in the store: `patient.model_dump()`
serializes the declared fields plus the two `@computed_field`s `bmi` and
`verdict` (`src/main.py` line 111). -/
structure StoredDoc where
  id : String
  name : String
  age : ℤ
  blood_group : String
  gender : Gender
  phone : String
  email : String
  address : String
  doctor : String
  salary : ℚ
  height : ℚ
  weight : ℚ
  bmi : ℚ
  verdict : String
deriving DecidableEq, Repr

/-- `patient.model_dump()`: the document written to the store on create. -/
def Patient.model_dump (p : Patient) : StoredDoc :=
  { id := p.id, name := p.name, age := p.age, blood_group := p.blood_group
    gender := p.gender, phone := p.phone, email := p.email
    address := p.address, doctor := p.doctor, salary := p.salary
    height := p.height, weight := p.weight
    bmi := p.bmi, verdict := p.verdict }

/-- The `PatientUpdate` pydantic model (`src/main.py` lines 43-54): every
field `Optional` with default `None`, and no `id` field.  `none` models a
field absent from the request body (`dict(exclude_unset=True)` drops it). -/
structure PatientUpdate where
  name : Option String := none
  age : Option ℤ := none
  blood_group : Option String := none
  gender : Option Gender := none
  phone : Option String := none
  email : Option String := none
  address : Option String := none
  doctor : Option String := none
  salary : Option ℚ := none
  height : Option ℚ := none
  weight : Option ℚ := none
deriving DecidableEq, Repr

/-- The in-memory store loaded from `patient.json`: a Python dict keyed by
patient id, modelled as an insertion-ordered association list. -/
def Store : Type := List (String × StoredDoc)

instance : DecidableEq Store := by
  unfold Store
  infer_instance

namespace Store

/-- Python dict access `data[patient_id]` / `data.get(pid)`. -/
def lookupId : Store → String → Option StoredDoc
  | [], _ => none
  | (k, v) :: rest, pid => if k = pid then some v else lookupId rest pid

/-- Python `patient_id in data`. -/
def hasId (s : Store) (pid : String) : Bool :=
  (s.lookupId pid).isSome

/-- Python dict assignment `data[k] = v`: overwrite in place if the key is
present (keeping its position in iteration order), else append at the end. -/
def dictSet : Store → String → StoredDoc → Store
  | [], pid, d => [(pid, d)]
  | (k, v) :: rest, pid, d =>
    if k = pid then (pid, d) :: rest else (k, v) :: dictSet rest pid d

/-- Python `data.pop(k)`: remove the entry for `k` (dict keys are unique). -/
def dictPop : Store → String → Store
  | [], _ => []
  | (k, v) :: rest, pid =>
    if k = pid then rest else (k, v) :: dictPop rest pid

/-- Python `data.values()`, in dict iteration order. -/
def values (s : Store) : List StoredDoc :=
  s.map Prod.snd

/-- The keys of the store, in dict iteration order. -/
def keys (s : Store) : List String :=
  s.map Prod.fst

end Store

/-- `raise HTTPException(status_code=..., detail=...)`. -/
structure HTTPError where
  status : ℕ
  detail : String
deriving DecidableEq, Repr

deriving instance DecidableEq for Except

/-- `HTTPException(404, "Patient not found")` (raised by `get_patient`,
`update_patient` and `delete_patient`). -/
def notFoundError : HTTPError := ⟨404, "Patient not found"⟩

/-- `GET /patient/{patient_id}` (`src/main.py` lines 81-86).  Pure reader:
it never calls `save_data`, so only the response is returned. -/
def get_patient (s : Store) (patient_id : String) : Except HTTPError StoredDoc :=
  match s.lookupId patient_id with
  | some d => Except.ok d
  | none => Except.error notFoundError

/-- `POST /create` (`src/main.py` lines 105-117).  Returns the response
(201 with `patient.model_dump()` on success) and the store contents after
the handler: `save_data` runs only on the success path. -/
def create_patient (s : Store) (patient : Patient) :
    Except HTTPError StoredDoc × Store :=
  if s.hasId patient.id then
    (Except.error ⟨400, "Patient with this ID already exists"⟩, s)
  else
    (Except.ok patient.model_dump, s.dictSet patient.id patient.model_dump)

/-- The merge loop of `update_patient` (`src/main.py` lines 127-128):
`for field, value in patient_update.dict(exclude_unset=True).items():
data[patient_id][field] = value`.  `PatientUpdate` has no `id` field and
the loop never touches `bmi`/`verdict`, so those three stay as stored. -/
def applyUpdate (d : StoredDoc) (u : PatientUpdate) : StoredDoc :=
  { d with
    name := u.name.getD d.name
    age := u.age.getD d.age
    blood_group := u.blood_group.getD d.blood_group
    gender := u.gender.getD d.gender
    phone := u.phone.getD d.phone
    email := u.email.getD d.email
    address := u.address.getD d.address
    doctor := u.doctor.getD d.doctor
    salary := u.salary.getD d.salary
    height := u.height.getD d.height
    weight := u.weight.getD d.weight }

/-- The recomputation block of `update_patient` (`src/main.py` lines
132-143): `bmi_value = round(weight / ((height / 100) ** 2), 2)` on the
post-merge document, then the same if/elif verdict chain as
`Patient.verdict`, overwriting the stored `bmi` and `verdict`. -/
def recompute (d : StoredDoc) : StoredDoc :=
  let bmi_value := round2 (d.weight / ((d.height / 100) ^ 2))
  { d with bmi := bmi_value, verdict := classify bmi_value }

/-- `PUT /update/{patient_id}` (`src/main.py` lines 120-152).  After the
merge, `bmi`/`verdict` are recomputed from the post-merge `height`/`weight`
iff `height` or `weight` was present in the update body.  A post-merge
`height = 0` makes `weight / ((height / 100) ** 2)` raise an uncaught
`ZeroDivisionError` in Python — modelled as a 500 response with `save_data`
never reached (store unchanged). -/
def update_patient (s : Store) (patient_id : String) (patient_update : PatientUpdate) :
    Except HTTPError StoredDoc × Store :=
  match s.lookupId patient_id with
  | none => (Except.error notFoundError, s)
  | some d0 =>
    let d1 := applyUpdate d0 patient_update
    if patient_update.height.isSome || patient_update.weight.isSome then
      if d1.height = 0 then
        (Except.error ⟨500, "ZeroDivisionError"⟩, s)
      else
        (Except.ok (recompute d1), s.dictSet patient_id (recompute d1))
    else
      (Except.ok d1, s.dictSet patient_id d1)

/-- `DELETE /delete/{patient_id}` (`src/main.py` lines 155-163). -/
def delete_patient (s : Store) (patient_id : String) :
    Except HTTPError StoredDoc × Store :=
  match s.lookupId patient_id with
  | none => (Except.error notFoundError, s)
  | some d => (Except.ok d, s.dictPop patient_id)

/-- The sort key `x.get(sort_by)` for `sort_by ∈ {"salary", "age"}`
(`src/main.py` line 102); `age` is an `int`, compared here in `ℚ`. -/
def sortKey (sort_by : String) (d : StoredDoc) : ℚ :=
  if sort_by = "salary" then d.salary else (d.age : ℚ)

/-- The comparison used by `sorted(..., key=..., reverse=sort_desc)`:
ascending on the key, or descending when `reverse=True`. -/
def sortLe (sort_by order : String) (a b : StoredDoc) : Bool :=
  if order = "desc" then sortKey sort_by b ≤ sortKey sort_by a
  else sortKey sort_by a ≤ sortKey sort_by b

/-- Insert into a sorted list, before the first element `b` with `le a b`
(so among equal elements the inserted one comes first). -/
def orderedInsertB {α : Type} (le : α → α → Bool) (a : α) : List α → List α
  | [] => [a]
  | b :: l => if le a b then a :: b :: l else b :: orderedInsertB le a l

/-- Stable insertion sort, modelling Python's stable `sorted`. -/
def insertionSortB {α : Type} (le : α → α → Bool) : List α → List α
  | [] => []
  | a :: l => orderedInsertB le a (insertionSortB le l)

/-- `GET /sort` (`src/main.py` lines 88-103).  Validates `sort_by` against
`["salary", "age"]` first, then `order` against `["asc", "desc"]`; on
success returns `sorted(data.values(), key=lambda x: x.get(sort_by),
reverse=(order == "desc"))`.  Never calls `save_data`; the returned store
is always the input. -/
def sort_patient (s : Store) (sort_by order : String) :
    Except HTTPError (List StoredDoc) × Store :=
  if sort_by ≠ "salary" ∧ sort_by ≠ "age" then
    -- detail is the f-string "Invalid sort field. Choose from ['salary', 'age']"
    (Except.error ⟨400, "Invalid sort field. Choose from [\x27salary\x27, \x27age\x27]"⟩, s)
  else if order ≠ "asc" ∧ order ≠ "desc" then
    (Except.error ⟨400, "Invalid order"⟩, s)
  else
    (Except.ok (insertionSortB (sortLe sort_by order) s.values), s)

/-- A JSON value, as produced by `json.load`. -/
inductive Json where
  | obj (fields : List (String × Json))
  | arr (elems : List Json)
  | str (s : String)
  | num (q : ℚ)
  | bool (b : Bool)
  | null
deriving Repr

/-- The outcome of `open("patient.json", "r")` + `json.load(f)` inside
`load_data` (the filesystem read and the JSON parser are the external
collaborators of spec §1): the file is absent (`FileNotFoundError`), its
contents fail to parse (`json.JSONDecodeError`), or parsing yields a JSON
value. -/
inductive ReadResult where
  | fileNotFound
  | jsonDecodeError
  | ok (v : Json)

/-- `load_data` (`src/main.py` lines 57-62): returns the parsed value, and
the empty dict `{}` when the read raises `FileNotFoundError` or
`json.JSONDecodeError`; no other outcome exists, so it never propagates
either exception to its caller. -/
def load_data : ReadResult → Json
  | .fileNotFound => Json.obj []
  | .jsonDecodeError => Json.obj []
  | .ok v => v

/-- The stores reachable from the empty store (fresh `patient.json`) by any
sequence of the three mutating handlers; `create` bodies must pass pydantic
validation (`Patient.Valid`), updates and deletes take arbitrary validated
input (a `PatientUpdate` body has nothing further to validate). -/
inductive Reachable : Store → Prop
  | empty : Reachable []
  | create (s : Store) (p : Patient) (hv : p.Valid) (h : Reachable s) :
      Reachable (create_patient s p).2
  | update (s : Store) (pid : String) (u : PatientUpdate) (h : Reachable s) :
      Reachable (update_patient s pid u).2
  | delete (s : Store) (pid : String) (h : Reachable s) :
      Reachable (delete_patient s pid).2

/-- A stored document is consistent when its persisted `bmi` equals the §4.2
derivation from its current `height`/`weight` and its `verdict` is the
classification of that `bmi`. -/
def DocConsistent (d : StoredDoc) : Prop :=
  d.bmi = round2 (d.weight / ((d.height / 100) ^ 2)) ∧ d.verdict = classify d.bmi

instance (d : StoredDoc) : Decidable (DocConsistent d) := by
  unfold DocConsistent
  infer_instance

/-- Every document at rest in the store is consistent. -/
def StoreConsistent (s : Store) : Prop :=
  ∀ d ∈ s.values, DocConsistent d

/-- The worked example of the spec: id="1", height=170, weight=70. -/
def examplePatient : Patient :=
  { id := "1", name := "John Doe", age := 30, blood_group := "O+"
    gender := .male, phone := "+1234567890", email := "abc@gmail.com"
    address := "123 Main St, City, Country", doctor := "Dr. Smith"
    salary := 50000, height := 170, weight := 70 }

/-- A store holding just the worked example, as `create_patient` would
persist it. -/
def exampleStore : Store := [("1", examplePatient.model_dump)]

/-- An update body `{"height": -170}`: pydantic accepts it, because
`PatientUpdate.height` is a bare `Optional[float]` with no `gt=0`. -/
def negUpdate : PatientUpdate := { height := some (-170) }

/-- An update body `{"name": "Jane Doe"}`: touches neither height nor
weight. -/
def nameUpdate : PatientUpdate := { name := some "Jane Doe" }

/-- Fixture documents with ages 30, 50, 20 for the sort example. -/
def docA : StoredDoc := { examplePatient.model_dump with id := "a", age := 30 }

def docB : StoredDoc := { examplePatient.model_dump with id := "b", age := 50 }

def docC : StoredDoc := { examplePatient.model_dump with id := "c", age := 20 }

/-- A store whose documents have ages [30, 50, 20] in iteration order. -/
def ageStore : Store := [("a", docA), ("b", docB), ("c", docC)]

section HandlerLemmas

theorem create_patient_existing (s : Store) (p : Patient)
    (h : Store.hasId s p.id = true) :
    create_patient s p =
      (Except.error ⟨400, "Patient with this ID already exists"⟩, s) := by
  unfold create_patient
  rw [if_pos h]

theorem create_patient_fresh (s : Store) (p : Patient)
    (h : Store.hasId s p.id = false) :
    create_patient s p =
      (Except.ok p.model_dump, Store.dictSet s p.id p.model_dump) := by
  unfold create_patient
  rw [if_neg (by simp [h])]

theorem update_patient_absent (s : Store) (pid : String) (u : PatientUpdate)
    (h : Store.lookupId s pid = none) :
    update_patient s pid u = (Except.error notFoundError, s) := by
  unfold update_patient
  rw [h]

theorem update_patient_no_hw (s : Store) (pid : String) (u : PatientUpdate)
    (d0 : StoredDoc) (h : Store.lookupId s pid = some d0)
    (hh : u.height = none) (hw : u.weight = none) :
    update_patient s pid u =
      (Except.ok (applyUpdate d0 u), Store.dictSet s pid (applyUpdate d0 u)) := by
  unfold update_patient
  rw [h]
  simp [hh, hw]

theorem update_patient_hw (s : Store) (pid : String) (u : PatientUpdate)
    (d0 : StoredDoc) (h : Store.lookupId s pid = some d0)
    (hsome : u.height.isSome || u.weight.isSome)
    (hnz : (applyUpdate d0 u).height ≠ 0) :
    update_patient s pid u =
      (Except.ok (recompute (applyUpdate d0 u)),
        Store.dictSet s pid (recompute (applyUpdate d0 u))) := by
  unfold update_patient
  rw [h]
  simp only [hsome, if_true, if_neg hnz]

theorem update_patient_hw_zero (s : Store) (pid : String) (u : PatientUpdate)
    (d0 : StoredDoc) (h : Store.lookupId s pid = some d0)
    (hsome : u.height.isSome || u.weight.isSome)
    (hz : (applyUpdate d0 u).height = 0) :
    update_patient s pid u = (Except.error ⟨500, "ZeroDivisionError"⟩, s) := by
  unfold update_patient
  rw [h]
  simp only [hsome, if_true, if_pos hz]

theorem delete_patient_absent (s : Store) (pid : String)
    (h : Store.lookupId s pid = none) :
    delete_patient s pid = (Except.error notFoundError, s) := by
  unfold delete_patient
  rw [h]

theorem delete_patient_present (s : Store) (pid : String) (d : StoredDoc)
    (h : Store.lookupId s pid = some d) :
    delete_patient s pid = (Except.ok d, Store.dictPop s pid) := by
  unfold delete_patient
  rw [h]

end HandlerLemmas

section SortLemmas

variable {α : Type} (le : α → α → Bool)

theorem orderedInsertB_perm (a : α) (l : List α) :
    (orderedInsertB le a l).Perm (a :: l) := by
  induction l with
  | nil => exact List.Perm.refl _
  | cons b l ih =>
    rw [orderedInsertB]
    by_cases h : le a b
    · rw [if_pos h]
    · rw [if_neg h]
      exact (List.Perm.cons b ih).trans (List.Perm.swap a b l)

theorem insertionSortB_perm (l : List α) : (insertionSortB le l).Perm l := by
  induction l with
  | nil => exact List.Perm.refl _
  | cons a l ih =>
    rw [insertionSortB]
    exact (orderedInsertB_perm le a _).trans (List.Perm.cons a ih)

theorem mem_orderedInsertB (a x : α) (l : List α)
    (h : x ∈ orderedInsertB le a l) : x = a ∨ x ∈ l :=
  List.mem_cons.mp ((orderedInsertB_perm le a l).mem_iff.mp h)

theorem pairwise_orderedInsertB
    (htot : ∀ a b, le a b = true ∨ le b a = true)
    (htrans : ∀ a b c, le a b = true → le b c = true → le a c = true)
    (a : α) (l : List α) (hl : l.Pairwise (le · · = true)) :
    (orderedInsertB le a l).Pairwise (le · · = true) := by
  induction l with
  | nil => simp [orderedInsertB]
  | cons b l ih =>
    rw [orderedInsertB]
    rw [List.pairwise_cons] at hl
    by_cases h : le a b
    · rw [if_pos h, List.pairwise_cons]
      refine ⟨?_, List.pairwise_cons.mpr hl⟩
      intro c hc
      rcases List.mem_cons.mp hc with hc | hc
      · exact hc ▸ h
      · exact htrans a b c h (hl.1 c hc)
    · rw [if_neg h, List.pairwise_cons]
      refine ⟨?_, ih hl.2⟩
      intro c hc
      rcases mem_orderedInsertB le a c l hc with hc | hc
      · rw [hc]
        rcases htot a b with hab | hba
        · exact absurd hab h
        · exact hba
      · exact hl.1 c hc

theorem pairwise_insertionSortB
    (htot : ∀ a b, le a b = true ∨ le b a = true)
    (htrans : ∀ a b c, le a b = true → le b c = true → le a c = true)
    (l : List α) : (insertionSortB le l).Pairwise (le · · = true) := by
  induction l with
  | nil => simp [insertionSortB]
  | cons a l ih =>
    rw [insertionSortB]
    exact pairwise_orderedInsertB le htot htrans a _ ih

/-- Stability of `orderedInsertB`: for a predicate `p` whose holders are
mutually `le`-related, inserting `a` either prepends it to the `p`-holders
(when `p a`) or leaves them untouched. -/
theorem filter_orderedInsertB (p : α → Bool)
    (hp : ∀ a b, p a = true → p b = true → le a b = true)
    (a : α) (l : List α) :
    (orderedInsertB le a l).filter p =
      if p a then a :: l.filter p else l.filter p := by
  induction l with
  | nil => by_cases h : p a <;> simp [orderedInsertB, h]
  | cons b l ih =>
    rw [orderedInsertB]
    by_cases h : le a b
    · rw [if_pos h]
      by_cases hpa : p a <;> simp [List.filter_cons, hpa]
    · rw [if_neg h]
      by_cases hpa : p a
      · have hpb : p b = false := by
          rcases Bool.eq_false_or_eq_true (p b) with hb | hb
          · exact absurd (hp a b hpa hb) (by simpa using h)
          · exact hb
        rw [if_pos hpa] at ih ⊢
        simp [List.filter_cons, hpb, ih]
      · rw [if_neg hpa] at ih ⊢
        simp [List.filter_cons, ih]

/-- Stability of the sort: the holders of such a predicate `p` appear in the
output exactly as they appeared in the input (Python's `sorted` is stable). -/
theorem filter_insertionSortB (p : α → Bool)
    (hp : ∀ a b, p a = true → p b = true → le a b = true)
    (l : List α) : (insertionSortB le l).filter p = l.filter p := by
  induction l with
  | nil => rfl
  | cons a l ih =>
    rw [insertionSortB, filter_orderedInsertB le p hp a _]
    by_cases hpa : p a <;> simp [List.filter_cons, hpa, ih]

end SortLemmas

namespace Store

theorem lookupId_cons (k' : String) (v' : StoredDoc) (rest : Store) (k : String) :
    lookupId ((k', v') :: rest) k = if k' = k then some v' else lookupId rest k := rfl

theorem dictSet_cons (k' : String) (v' : StoredDoc) (rest : Store) (k : String) (v : StoredDoc) :
    dictSet ((k', v') :: rest) k v =
      if k' = k then (k, v) :: rest else (k', v') :: dictSet rest k v := rfl

theorem dictPop_cons (k' : String) (v' : StoredDoc) (rest : Store) (k : String) :
    dictPop ((k', v') :: rest) k =
      if k' = k then rest else (k', v') :: dictPop rest k := rfl

theorem values_cons (k' : String) (v' : StoredDoc) (rest : Store) :
    values ((k', v') :: rest) = v' :: values rest := rfl

theorem keys_cons (k' : String) (v' : StoredDoc) (rest : Store) :
    keys ((k', v') :: rest) = k' :: keys rest := rfl

theorem lookupId_dictSet_self (s : Store) (k : String) (v : StoredDoc) :
    lookupId (dictSet s k v) k = some v := by
  induction s with
  | nil => simp [dictSet, lookupId]
  | cons kv rest ih =>
    obtain ⟨k', v'⟩ := kv
    rw [dictSet_cons]
    by_cases h : k' = k
    · simp [h, lookupId_cons]
    · rw [if_neg h, lookupId_cons, if_neg h, ih]

theorem lookupId_dictSet_ne (s : Store) (k q : String) (v : StoredDoc)
    (hne : q ≠ k) : lookupId (dictSet s k v) q = lookupId s q := by
  induction s with
  | nil => simp [dictSet, lookupId, Ne.symm hne]
  | cons kv rest ih =>
    obtain ⟨k', v'⟩ := kv
    rw [dictSet_cons]
    by_cases h : k' = k
    · subst h
      rw [if_pos rfl, lookupId_cons, lookupId_cons,
        if_neg (Ne.symm hne), if_neg (Ne.symm hne)]
    · rw [if_neg h, lookupId_cons, lookupId_cons, ih]

theorem keys_dictSet (s : Store) (k : String) (v : StoredDoc)
    (h : hasId s k) : keys (dictSet s k v) = keys s := by
  induction s with
  | nil => simp [hasId, lookupId] at h
  | cons kv rest ih =>
    obtain ⟨k', v'⟩ := kv
    rw [dictSet_cons]
    by_cases hk : k' = k
    · subst hk
      rw [if_pos rfl, keys_cons, keys_cons]
    · have hrest : hasId rest k := by
        simpa [hasId, lookupId_cons, hk] using h
      rw [if_neg hk, keys_cons, keys_cons, ih hrest]

theorem mem_values_dictSet (s : Store) (k : String) (v d : StoredDoc)
    (h : d ∈ values (dictSet s k v)) : d ∈ values s ∨ d = v := by
  induction s with
  | nil =>
    simp [dictSet, values] at h
    exact Or.inr h
  | cons kv rest ih =>
    obtain ⟨k', v'⟩ := kv
    rw [dictSet_cons] at h
    by_cases hk : k' = k
    · rw [if_pos hk, values_cons] at h
      rw [values_cons]
      rcases List.mem_cons.mp h with h | h
      · exact Or.inr h
      · exact Or.inl (List.mem_cons_of_mem _ h)
    · rw [if_neg hk, values_cons] at h
      rw [values_cons]
      rcases List.mem_cons.mp h with h | h
      · exact Or.inl (h ▸ List.mem_cons_self _ _)
      · rcases ih h with h2 | h2
        · exact Or.inl (List.mem_cons_of_mem _ h2)
        · exact Or.inr h2

theorem lookupId_mem_values (s : Store) (k : String) (d : StoredDoc)
    (h : lookupId s k = some d) : d ∈ values s := by
  induction s with
  | nil => simp [lookupId] at h
  | cons kv rest ih =>
    obtain ⟨k', v'⟩ := kv
    rw [lookupId_cons] at h
    rw [values_cons]
    by_cases hk : k' = k
    · rw [if_pos hk] at h
      exact (Option.some.injEq _ _ ▸ h) ▸ List.mem_cons_self _ _
    · rw [if_neg hk] at h
      exact List.mem_cons_of_mem _ (ih h)

theorem lookupId_eq_none_of_not_mem_keys (s : Store) (k : String)
    (h : k ∉ keys s) : lookupId s k = none := by
  induction s with
  | nil => rfl
  | cons kv rest ih =>
    obtain ⟨k', v'⟩ := kv
    rw [keys_cons] at h
    have hne : k' ≠ k := by
      intro he
      exact h (by rw [← he]; exact List.mem_cons_self _ _)
    rw [lookupId_cons, if_neg hne, ih fun hm => h (List.mem_cons_of_mem _ hm)]

theorem lookupId_dictPop_self (s : Store) (k : String)
    (hnd : (keys s).Nodup) : lookupId (dictPop s k) k = none := by
  induction s with
  | nil => rfl
  | cons kv rest ih =>
    obtain ⟨k', v'⟩ := kv
    rw [keys_cons, List.nodup_cons] at hnd
    rw [dictPop_cons]
    by_cases hk : k' = k
    · subst hk
      rw [if_pos rfl]
      exact lookupId_eq_none_of_not_mem_keys rest k' hnd.1
    · rw [if_neg hk, lookupId_cons, if_neg hk, ih hnd.2]

theorem lookupId_dictPop_ne (s : Store) (k q : String) (hne : q ≠ k) :
    lookupId (dictPop s k) q = lookupId s q := by
  induction s with
  | nil => rfl
  | cons kv rest ih =>
    obtain ⟨k', v'⟩ := kv
    rw [dictPop_cons]
    by_cases hk : k' = k
    · subst hk
      rw [if_pos rfl, lookupId_cons, if_neg (Ne.symm hne)]
    · rw [if_neg hk, lookupId_cons, lookupId_cons, ih]

theorem mem_values_dictPop (s : Store) (k : String) (d : StoredDoc)
    (h : d ∈ values (dictPop s k)) : d ∈ values s := by
  induction s with
  | nil => simpa [dictPop] using h
  | cons kv rest ih =>
    obtain ⟨k', v'⟩ := kv
    rw [dictPop_cons] at h
    rw [values_cons]
    by_cases hk : k' = k
    · rw [if_pos hk] at h
      exact List.mem_cons_of_mem _ h
    · rw [if_neg hk, values_cons] at h
      rcases List.mem_cons.mp h with h | h
      · exact h ▸ List.mem_cons_self _ _
      · exact List.mem_cons_of_mem _ (ih h)

end Store

section Verification

-- Batteries marks the `Rat` field operations `@[irreducible]`, which blocks
-- the `decide` tactic's evaluation on concrete rationals; the kernel itself
-- can unfold them, so making them semireducible here is sound and lets the
-- concrete examples below be settled by `decide`.
attribute [local semireducible] Rat.ofScientific Rat.mul Rat.inv Rat.add Rat.sub

theorem classify_underweight (x : ℚ) (h : x < 18.5) :
    classify x = "Underweight" := by
  unfold classify
  rw [if_pos h]

theorem classify_normal (x : ℚ) (h1 : 18.5 ≤ x) (h2 : x < 24.9) :
    classify x = "Normal weight" := by
  unfold classify
  rw [if_neg (not_lt.mpr h1), if_pos ⟨h1, h2⟩]

theorem classify_overweight (x : ℚ) (h1 : 25 ≤ x) (h2 : x < 29.9) :
    classify x = "Overweight" := by
  unfold classify
  rw [if_neg (not_lt.mpr (by linarith)), if_neg ?_, if_pos ⟨h1, h2⟩]
  rintro ⟨-, hb⟩
  linarith

theorem classify_gap_obesity (x : ℚ) (h1 : 24.9 ≤ x) (h2 : x < 25) :
    classify x = "Obesity" := by
  unfold classify
  rw [if_neg (not_lt.mpr (by linarith)), if_neg ?_, if_neg ?_]
  · rintro ⟨ha, -⟩
    linarith
  · rintro ⟨-, hb⟩
    linarith

theorem classify_high_obesity (x : ℚ) (h1 : 29.9 ≤ x) :
    classify x = "Obesity" := by
  unfold classify
  rw [if_neg (not_lt.mpr (by linarith)), if_neg ?_, if_neg ?_]
  · rintro ⟨-, hb⟩
    linarith
  · rintro ⟨-, hb⟩
    linarith

/-- C1: for every patient with height > 0 and weight > 0, the derived `bmi`
equals `round(weight / (height/100)^2, 2)`, and the `verdict` follows the
first-match-wins threshold table: `bmi < 18.5` is "Underweight",
`18.5 ≤ bmi < 24.9` is "Normal weight", `25 ≤ bmi < 29.9` is "Overweight",
and everything else — including the gap `bmi ∈ [24.9, 25)` and
`bmi ≥ 29.9` — is "Obesity". -/
theorem patient_bmi_verdict_table (p : Patient)
    (hh : 0 < p.height) (hw : 0 < p.weight) :
    p.bmi = round2 (p.weight / ((p.height / 100) ^ 2)) ∧
    (p.bmi < 18.5 → p.verdict = "Underweight") ∧
    (18.5 ≤ p.bmi → p.bmi < 24.9 → p.verdict = "Normal weight") ∧
    (25 ≤ p.bmi → p.bmi < 29.9 → p.verdict = "Overweight") ∧
    (24.9 ≤ p.bmi → p.bmi < 25 → p.verdict = "Obesity") ∧
    (29.9 ≤ p.bmi → p.verdict = "Obesity") :=
  ⟨rfl,
    fun h => classify_underweight p.bmi h,
    fun h1 h2 => classify_normal p.bmi h1 h2,
    fun h1 h2 => classify_overweight p.bmi h1 h2,
    fun h1 h2 => classify_gap_obesity p.bmi h1 h2,
    fun h1 => classify_high_obesity p.bmi h1⟩

/-- Witness for C1 at the spec's worked example: height=170, weight=70
gives bmi=24.22 and verdict "Normal weight". -/
theorem patient_bmi_verdict_table_witness :
    (0 < examplePatient.height ∧ 0 < examplePatient.weight) ∧
    examplePatient.bmi = 24.22 ∧ examplePatient.verdict = "Normal weight" :=
  ⟨⟨by decide, by decide⟩, by decide,
    (patient_bmi_verdict_table examplePatient (by decide) (by decide)).2.2.1
      (by decide) (by decide)⟩

/-- C2 (failing input, code bug): the update body `{"height": -170}` on the
stored worked-example record is NOT rejected: `PatientUpdate` (unlike
`Patient`) declares no `gt=0` constraints, pydantic accepts the negative
height, `update_patient` computes `bmi` from it (the square hides the sign:
bmi = 24.22) and saves the record with `height = -170`.  The spec requires
such a record to be rejected without saving. -/
theorem update_accepts_negative_height :
    negUpdate.height = some (-170) ∧
    (update_patient exampleStore "1" negUpdate).1.isOk = true ∧
    (Store.lookupId (update_patient exampleStore "1" negUpdate).2 "1").map
      StoredDoc.height = some (-170) ∧
    (Store.lookupId (update_patient exampleStore "1" negUpdate).2 "1").map
      StoredDoc.bmi = some 24.22 ∧
    (update_patient exampleStore "1" negUpdate).2 ≠ exampleStore := by
  refine ⟨rfl, by decide, by decide, by decide, by decide⟩

theorem docConsistent_model_dump (p : Patient) : DocConsistent p.model_dump :=
  ⟨rfl, rfl⟩

theorem docConsistent_recompute (d : StoredDoc) : DocConsistent (recompute d) :=
  ⟨rfl, rfl⟩

theorem docConsistent_applyUpdate_no_hw (d0 : StoredDoc) (u : PatientUpdate)
    (hh : u.height = none) (hw : u.weight = none) (h : DocConsistent d0) :
    DocConsistent (applyUpdate d0 u) := by
  unfold DocConsistent at h ⊢
  unfold applyUpdate
  rw [hh, hw]
  simpa using h

theorem opt_none_of_or_isSome_ne_true {β : Type} {a b : Option β}
    (h : ¬(a.isSome || b.isSome) = true) : a = none ∧ b = none := by
  constructor
  · cases ha : a with
    | none => rfl
    | some x => exact absurd (by simp [ha]) h
  · cases hb : b with
    | none => rfl
    | some x => exact absurd (by simp [hb]) h

/-- C3: in every store reachable from the empty store by any sequence of
create / update / delete with validated inputs, every stored record has
`bmi = round(weight / (height/100)^2, 2)` on its current height and weight,
and `verdict` equal to the classification of that `bmi`. -/
theorem reachable_store_consistent (s : Store) (h : Reachable s) :
    StoreConsistent s := by
  induction h with
  | empty =>
    intro d hd
    simp [Store.values] at hd
  | create s p hv hr ih =>
    intro d hd
    by_cases hc : Store.hasId s p.id = true
    · rw [create_patient_existing s p hc] at hd
      exact ih d hd
    · rw [create_patient_fresh s p (by simpa using hc)] at hd
      rcases Store.mem_values_dictSet _ _ _ _ hd with h | h
      · exact ih d h
      · rw [h]
        exact docConsistent_model_dump p
  | update s pid u hr ih =>
    intro d hd
    cases hl : Store.lookupId s pid with
    | none =>
      rw [update_patient_absent s pid u hl] at hd
      exact ih d hd
    | some d0 =>
      by_cases hs : (u.height.isSome || u.weight.isSome) = true
      · by_cases hz : (applyUpdate d0 u).height = 0
        · rw [update_patient_hw_zero s pid u d0 hl hs hz] at hd
          exact ih d hd
        · rw [update_patient_hw s pid u d0 hl hs hz] at hd
          rcases Store.mem_values_dictSet _ _ _ _ hd with h | h
          · exact ih d h
          · rw [h]
            exact docConsistent_recompute _
      · obtain ⟨hhn, hwn⟩ := opt_none_of_or_isSome_ne_true hs
        rw [update_patient_no_hw s pid u d0 hl hhn hwn] at hd
        rcases Store.mem_values_dictSet _ _ _ _ hd with h | h
        · exact ih d h
        · rw [h]
          exact docConsistent_applyUpdate_no_hw d0 u hhn hwn
            (ih d0 (Store.lookupId_mem_values s pid d0 hl))
  | delete s pid hr ih =>
    intro d hd
    cases hl : Store.lookupId s pid with
    | none =>
      rw [delete_patient_absent s pid hl] at hd
      exact ih d hd
    | some d0 =>
      rw [delete_patient_present s pid d0 hl] at hd
      exact ih d (Store.mem_values_dictPop s pid d hd)

/-- Witness for C3: the store obtained by creating the worked-example
patient in the empty store is reachable, and consistent by the theorem. -/
theorem reachable_store_consistent_witness :
    StoreConsistent (create_patient [] examplePatient).2 :=
  reachable_store_consistent _
    (Reachable.create [] examplePatient (by decide) Reachable.empty)

/-- C4: an update whose body contains neither height nor weight succeeds,
stores a merged record whose `bmi` and `verdict` are identical to the
previous ones, keeps `id`, `height` and `weight`, and gives every mergeable
field the supplied value when present and the previous value when absent
(`u.f.getD d0.f` is exactly that). -/
theorem update_no_hw_frame (s : Store) (pid : String) (u : PatientUpdate)
    (d0 : StoredDoc) (h : Store.lookupId s pid = some d0)
    (hh : u.height = none) (hw : u.weight = none) :
    ∃ d1, update_patient s pid u = (Except.ok d1, Store.dictSet s pid d1) ∧
      Store.lookupId (update_patient s pid u).2 pid = some d1 ∧
      d1.bmi = d0.bmi ∧ d1.verdict = d0.verdict ∧
      d1.id = d0.id ∧ d1.height = d0.height ∧ d1.weight = d0.weight ∧
      d1.name = u.name.getD d0.name ∧
      d1.age = u.age.getD d0.age ∧
      d1.blood_group = u.blood_group.getD d0.blood_group ∧
      d1.gender = u.gender.getD d0.gender ∧
      d1.phone = u.phone.getD d0.phone ∧
      d1.email = u.email.getD d0.email ∧
      d1.address = u.address.getD d0.address ∧
      d1.doctor = u.doctor.getD d0.doctor ∧
      d1.salary = u.salary.getD d0.salary := by
  refine ⟨applyUpdate d0 u, update_patient_no_hw s pid u d0 h hh hw,
    ?_, rfl, rfl, rfl, ?_, ?_, rfl, rfl, rfl, rfl, rfl, rfl, rfl, rfl, rfl⟩
  · rw [update_patient_no_hw s pid u d0 h hh hw]
    exact Store.lookupId_dictSet_self s pid (applyUpdate d0 u)
  · show u.height.getD d0.height = d0.height
    rw [hh]
    rfl
  · show u.weight.getD d0.weight = d0.weight
    rw [hw]
    rfl

/-- Witness for C4: renaming the worked-example record leaves its stored
bmi (24.22) and verdict ("Normal weight") byte-identical and sets the new
name. -/
theorem update_no_hw_frame_witness :
    ∃ d1, update_patient exampleStore "1" nameUpdate =
        (Except.ok d1, Store.dictSet exampleStore "1" d1) ∧
      Store.lookupId (update_patient exampleStore "1" nameUpdate).2 "1" = some d1 ∧
      d1.bmi = examplePatient.model_dump.bmi ∧
      d1.verdict = examplePatient.model_dump.verdict ∧
      d1.id = examplePatient.model_dump.id ∧
      d1.height = examplePatient.model_dump.height ∧
      d1.weight = examplePatient.model_dump.weight ∧
      d1.name = nameUpdate.name.getD examplePatient.model_dump.name ∧
      d1.age = nameUpdate.age.getD examplePatient.model_dump.age ∧
      d1.blood_group = nameUpdate.blood_group.getD examplePatient.model_dump.blood_group ∧
      d1.gender = nameUpdate.gender.getD examplePatient.model_dump.gender ∧
      d1.phone = nameUpdate.phone.getD examplePatient.model_dump.phone ∧
      d1.email = nameUpdate.email.getD examplePatient.model_dump.email ∧
      d1.address = nameUpdate.address.getD examplePatient.model_dump.address ∧
      d1.doctor = nameUpdate.doctor.getD examplePatient.model_dump.doctor ∧
      d1.salary = nameUpdate.salary.getD examplePatient.model_dump.salary :=
  update_no_hw_frame exampleStore "1" nameUpdate examplePatient.model_dump
    (by decide) (by decide) (by decide)

/-- C5: creating a patient whose id already exists fails with HTTP 400
("Conflict") and leaves the store — in particular the existing record for
that id — unchanged. -/
theorem create_duplicate_conflict (s : Store) (p : Patient)
    (h : Store.hasId s p.id = true) :
    create_patient s p =
      (Except.error ⟨400, "Patient with this ID already exists"⟩, s) ∧
    (create_patient s p).2 = s ∧
    Store.lookupId (create_patient s p).2 p.id = Store.lookupId s p.id := by
  have he := create_patient_existing s p h
  exact ⟨he, by rw [he], by rw [he]⟩

/-- Witness for C5: re-creating id="1" over the worked-example store
yields 400 and the stored record is untouched. -/
theorem create_duplicate_conflict_witness :
    create_patient exampleStore examplePatient =
      (Except.error ⟨400, "Patient with this ID already exists"⟩, exampleStore) ∧
    (create_patient exampleStore examplePatient).2 = exampleStore ∧
    Store.lookupId (create_patient exampleStore examplePatient).2
        examplePatient.id =
      Store.lookupId exampleStore examplePatient.id :=
  create_duplicate_conflict exampleStore examplePatient (by decide)

/-- C6: creating a fresh valid record and then getting its id returns a
document whose non-derived fields equal the input record's fields and whose
`bmi`/`verdict` equal the §4.2 derivation from the input height/weight. -/
theorem create_get_roundtrip (s : Store) (p : Patient)
    (hfresh : Store.hasId s p.id = false) (hv : p.Valid) :
    get_patient (create_patient s p).2 p.id = Except.ok p.model_dump ∧
    p.model_dump.id = p.id ∧ p.model_dump.name = p.name ∧
    p.model_dump.age = p.age ∧ p.model_dump.blood_group = p.blood_group ∧
    p.model_dump.gender = p.gender ∧ p.model_dump.phone = p.phone ∧
    p.model_dump.email = p.email ∧ p.model_dump.address = p.address ∧
    p.model_dump.doctor = p.doctor ∧ p.model_dump.salary = p.salary ∧
    p.model_dump.height = p.height ∧ p.model_dump.weight = p.weight ∧
    p.model_dump.bmi = round2 (p.weight / ((p.height / 100) ^ 2)) ∧
    p.model_dump.verdict = classify p.model_dump.bmi := by
  refine ⟨?_, rfl, rfl, rfl, rfl, rfl, rfl, rfl, rfl, rfl, rfl, rfl, rfl,
    rfl, rfl⟩
  rw [create_patient_fresh s p hfresh]
  unfold get_patient
  rw [Store.lookupId_dictSet_self]

/-- Witness for C6: create the worked example in the empty store, then get
id="1". -/
theorem create_get_roundtrip_witness :
    get_patient (create_patient [] examplePatient).2 examplePatient.id =
      Except.ok examplePatient.model_dump ∧
    examplePatient.model_dump.bmi =
      round2 (examplePatient.weight / ((examplePatient.height / 100) ^ 2)) ∧
    examplePatient.model_dump.verdict =
      classify examplePatient.model_dump.bmi :=
  ⟨(create_get_roundtrip [] examplePatient (by decide) (by decide)).1,
    (create_get_roundtrip [] examplePatient (by decide) (by decide)).2.2.2.2.2.2.2.2.2.2.2.2.2.1,
    (create_get_roundtrip [] examplePatient (by decide) (by decide)).2.2.2.2.2.2.2.2.2.2.2.2.2.2⟩

theorem sortLe_total (f o : String) (a b : StoredDoc) :
    sortLe f o a b = true ∨ sortLe f o b a = true := by
  unfold sortLe
  split_ifs <;> simp only [decide_eq_true_eq] <;> exact le_total _ _

theorem sortLe_trans (f o : String) (a b c : StoredDoc)
    (h1 : sortLe f o a b = true) (h2 : sortLe f o b c = true) :
    sortLe f o a c = true := by
  unfold sortLe at h1 h2 ⊢
  split_ifs at h1 h2 ⊢ with ho
  · simp only [decide_eq_true_eq] at h1 h2 ⊢
    exact le_trans h2 h1
  · simp only [decide_eq_true_eq] at h1 h2 ⊢
    exact le_trans h1 h2

theorem sortLe_of_sortKey_eq (f o : String) (k : ℚ) (a b : StoredDoc)
    (ha : decide (sortKey f a = k) = true) (hb : decide (sortKey f b = k) = true) :
    sortLe f o a b = true := by
  simp only [decide_eq_true_eq] at ha hb
  unfold sortLe
  split_ifs <;> simp only [decide_eq_true_eq] <;> rw [ha, hb]

/-- C7: for `sort_by ∈ {salary, age}` and `order ∈ {asc, desc}`, the sort
endpoint returns the stored documents ordered by the chosen field in the
chosen direction, the output is a permutation of the stored values, ties
keep the original dict iteration order (stability, phrased as: the
documents with any fixed key value appear exactly as in the input), and the
store is untouched; any other `sort_by` or `order` fails with HTTP 400 and
an untouched store. -/
theorem sort_patient_spec (s : Store) (f o : String) :
    ((f ≠ "salary" ∧ f ≠ "age") →
      sort_patient s f o =
        (Except.error
          ⟨400, "Invalid sort field. Choose from [\x27salary\x27, \x27age\x27]"⟩,
          s)) ∧
    ((f = "salary" ∨ f = "age") → (o ≠ "asc" ∧ o ≠ "desc") →
      sort_patient s f o = (Except.error ⟨400, "Invalid order"⟩, s)) ∧
    ((f = "salary" ∨ f = "age") → (o = "asc" ∨ o = "desc") →
      ∃ l, sort_patient s f o = (Except.ok l, s) ∧
        l.Perm (Store.values s) ∧
        l.Pairwise (fun a b => sortLe f o a b = true) ∧
        ∀ k : ℚ, l.filter (fun d => decide (sortKey f d = k)) =
          (Store.values s).filter (fun d => decide (sortKey f d = k))) := by
  refine ⟨?_, ?_, ?_⟩
  · intro hf
    unfold sort_patient
    rw [if_pos hf]
  · intro hf ho
    unfold sort_patient
    rw [if_neg ?_, if_pos ho]
    rintro ⟨h1, h2⟩
    rcases hf with hf | hf
    · exact h1 hf
    · exact h2 hf
  · intro hf ho
    refine ⟨insertionSortB (sortLe f o) (Store.values s), ?_, ?_, ?_, ?_⟩
    · unfold sort_patient
      rw [if_neg ?_, if_neg ?_]
      · rintro ⟨h1, h2⟩
        rcases ho with ho | ho
        · exact h1 ho
        · exact h2 ho
      · rintro ⟨h1, h2⟩
        rcases hf with hf | hf
        · exact h1 hf
        · exact h2 hf
    · exact insertionSortB_perm (sortLe f o) (Store.values s)
    · exact pairwise_insertionSortB (sortLe f o) (sortLe_total f o)
        (sortLe_trans f o) (Store.values s)
    · intro k
      exact filter_insertionSortB (sortLe f o) _
        (sortLe_of_sortKey_eq f o k) (Store.values s)

/-- Witness for C7: ages [30, 50, 20] sorted by age descending come out
[50, 30, 20]; sorting by the unsupported field "name" yields HTTP 400. -/
theorem sort_patient_spec_witness :
    sort_patient ageStore "age" "desc" =
      (Except.ok [docB, docA, docC], ageStore) ∧
    sort_patient ageStore "name" "asc" =
      (Except.error
        ⟨400, "Invalid sort field. Choose from [\x27salary\x27, \x27age\x27]"⟩,
        ageStore) :=
  ⟨by decide, (sort_patient_spec ageStore "name" "asc").1 (by decide)⟩

/-- C8: deleting a present id removes exactly that record (a following get
of the id is 404, every other id is untouched) and delete of an absent id —
in particular a second delete of the same id — fails with 404 instead of
succeeding as a no-op. -/
theorem delete_then_get_semantics (s : Store) (pid : String)
    (hnd : (Store.keys s).Nodup) :
    (∀ d, Store.lookupId s pid = some d →
      delete_patient s pid = (Except.ok d, Store.dictPop s pid) ∧
      get_patient (delete_patient s pid).2 pid = Except.error notFoundError ∧
      (∀ q, q ≠ pid →
        Store.lookupId (delete_patient s pid).2 q = Store.lookupId s q) ∧
      delete_patient (delete_patient s pid).2 pid =
        (Except.error notFoundError, (delete_patient s pid).2)) ∧
    (Store.lookupId s pid = none →
      delete_patient s pid = (Except.error notFoundError, s)) := by
  constructor
  · intro d hd
    have hdel := delete_patient_present s pid d hd
    have hnone : Store.lookupId (delete_patient s pid).2 pid = none := by
      rw [hdel]
      exact Store.lookupId_dictPop_self s pid hnd
    refine ⟨hdel, ?_, ?_, ?_⟩
    · unfold get_patient
      rw [hnone]
    · intro q hq
      rw [hdel]
      exact Store.lookupId_dictPop_ne s pid q hq
    · exact delete_patient_absent _ pid hnone
  · exact delete_patient_absent s pid

/-- Witness for C8 at the worked-example store: delete id="1", get it
(404), delete it again (404). -/
theorem delete_then_get_semantics_witness :
    delete_patient exampleStore "1" =
      (Except.ok examplePatient.model_dump, Store.dictPop exampleStore "1") ∧
    get_patient (delete_patient exampleStore "1").2 "1" =
      Except.error notFoundError ∧
    delete_patient (delete_patient exampleStore "1").2 "1" =
      (Except.error notFoundError, (delete_patient exampleStore "1").2) :=
  have h := (delete_then_get_semantics exampleStore "1" (by decide)).1
    examplePatient.model_dump (by decide)
  ⟨h.1, h.2.1, h.2.2.2⟩

/-- C9: `load_data` returns the empty dict both when the file is missing
(`FileNotFoundError`) and when its contents fail to parse
(`json.JSONDecodeError`); being a total function of the read outcome, it
never propagates either exception to its caller. -/
theorem load_data_missing_or_unparseable :
    load_data ReadResult.fileNotFound = Json.obj [] ∧
    load_data ReadResult.jsonDecodeError = Json.obj [] :=
  ⟨rfl, rfl⟩

/-- C10: no update can rename or re-key a record: after any update request
the set (and order) of store keys is unchanged, records under other ids are
untouched, and the target record's `id` field is unchanged (`PatientUpdate`
exposes no `id` field for the merge loop to copy). -/
theorem update_preserves_ids (s : Store) (pid : String) (u : PatientUpdate) :
    Store.keys (update_patient s pid u).2 = Store.keys s ∧
    (∀ q, q ≠ pid →
      Store.lookupId (update_patient s pid u).2 q = Store.lookupId s q) ∧
    (∀ d0, Store.lookupId s pid = some d0 →
      ∃ d1, Store.lookupId (update_patient s pid u).2 pid = some d1 ∧
        d1.id = d0.id) := by
  cases hl : Store.lookupId s pid with
  | none =>
    rw [update_patient_absent s pid u hl]
    exact ⟨rfl, fun q hq => rfl,
      fun d0 hd0 => Option.noConfusion hd0⟩
  | some d0 =>
    have hhas : Store.hasId s pid = true := by
      unfold Store.hasId
      rw [hl]
      rfl
    by_cases hs : (u.height.isSome || u.weight.isSome) = true
    · by_cases hz : (applyUpdate d0 u).height = 0
      · rw [update_patient_hw_zero s pid u d0 hl hs hz]
        refine ⟨rfl, fun q hq => rfl, fun d0' hd0' => ⟨d0, hl, ?_⟩⟩
        have h : d0 = d0' := by
          injection hd0'
        rw [h]
      · rw [update_patient_hw s pid u d0 hl hs hz]
        refine ⟨Store.keys_dictSet s pid _ hhas,
          fun q hq => Store.lookupId_dictSet_ne s pid q _ hq,
          fun d0' hd0' => ⟨recompute (applyUpdate d0 u),
            Store.lookupId_dictSet_self s pid _, ?_⟩⟩
        have h : d0 = d0' := by
          injection hd0'
        rw [← h]
        rfl
    · obtain ⟨hhn, hwn⟩ := opt_none_of_or_isSome_ne_true hs
      rw [update_patient_no_hw s pid u d0 hl hhn hwn]
      refine ⟨Store.keys_dictSet s pid _ hhas,
        fun q hq => Store.lookupId_dictSet_ne s pid q _ hq,
        fun d0' hd0' => ⟨applyUpdate d0 u,
          Store.lookupId_dictSet_self s pid _, ?_⟩⟩
      have h : d0 = d0' := by
        injection hd0'
      rw [← h]
      rfl

/-- Witness for C10: the negative-height update of C2 still cannot re-key
the record: keys stay ["1"] and the id field stays "1". -/
theorem update_preserves_ids_witness :
    Store.keys (update_patient exampleStore "1" negUpdate).2 =
      Store.keys exampleStore ∧
    ∃ d1, Store.lookupId (update_patient exampleStore "1" negUpdate).2 "1" =
        some d1 ∧ d1.id = examplePatient.model_dump.id :=
  ⟨(update_preserves_ids exampleStore "1" negUpdate).1,
    (update_preserves_ids exampleStore "1" negUpdate).2.2
      examplePatient.model_dump (by decide)⟩

end Verification
